import Mathlib

/-!
Verification of the link-resolution and caching pipeline of the
`addonespanol-ndk` addon (src/main.py and src/utils/bd.py).

The Python code is shallowly embedded: dictionaries become structures,
the Redis hash `final_links` becomes an association list, the sqlite
tables `enlaces_pelis` / `enlaces_series` become association lists of
rows, external HTTP calls (the debrid provider, the 1fichier promote/copy
endpoint, the per-link info service) become oracle functions, and Python
exceptions become `Except` values which the embedded functions propagate
or catch exactly where the source does.
-/

namespace NDK

/-- Errors raised by external calls (network / API failures). -/
abbrev Err := String

/-- Decides whether `needle` occurs as a contiguous run inside the list,
mirroring the Python substring test `needle in haystack`. -/
def containsSeq (needle : List Char) : List Char → Bool
  | [] => needle.isEmpty
  | c :: rest => needle.isPrefixOf (c :: rest) || containsSeq needle rest

/-- The Python test `needle in haystack` on strings. -/
def strContains (haystack needle : String) : Bool :=
  containsSeq needle.data haystack.data

/-- Modelled from the spec: `encodeb64` lives in `utils/string_encoding.py`,
which is not among the provided sources; the spec only requires a key
"derived deterministically and reversibly from `original_link`", shared by
the playback URL and the cache key.  We use decimal code points joined by
dashes, which is deterministic and reversible. -/
def encodeb64 (s : String) : String :=
  String.intercalate "-" (s.data.map (fun c => toString c.toNat))

/-- Modelled from the spec: inverse decoding for `decodeb64` of
`utils/string_encoding.py` (not among the provided sources). -/
def decodeb64 (s : String) : String :=
  String.mk (((s.splitOn "-").filterMap String.toNat?).map Char.ofNat)

/-- The user configuration, as produced by `parse_config` (a collaborator
outside this core).  `maxSize` holds `int(config["maxSize"])` when the key
is present; `selectedQualityExclusion` the exclusion list when present;
`rest` stands for the remaining recognized fields (provider, credentials,
host…), which participate in structural equality of configurations. -/
structure Config where
  maxSize : Option Int
  selectedQualityExclusion : Option (List String)
  addonHost : String
  rest : List (String × String)
deriving DecidableEq

/-- The per-candidate dictionary `data` built by `get_results`:
`filesize` (default 0), `quality` (default empty) and the optional
`nombre_fichero` key. -/
structure LinkData where
  filesize : Nat
  quality : String
  nombre_fichero : Option String
deriving DecidableEq

/-- A record stored in the Redis hash `final_links`
(fields `config`, `link`, `final_link`, `filesize`). -/
structure CacheEntry where
  config : Config
  link : String
  final_link : String
  filesize : Nat
deriving DecidableEq

/-- The Redis hash `final_links`; `hset` shadows previous bindings of the
same field, `hget` reads the most recent one. -/
abbrev Cache := List (String × CacheEntry)

/-- `redis_client.hset "final_links" k v`. -/
def hset (c : Cache) (k : String) (v : CacheEntry) : Cache :=
  (k, v) :: c

/-- `redis_client.hget "final_links" k`. -/
def hget (c : Cache) (k : String) : Option CacheEntry :=
  (c.find? (fun p => p.1 == k)).map Prod.snd

/-! ### Candidate filter and ranker (`_process_and_cache_links`, first half) -/

/-- `filesize_gb = data.get("filesize", 0) / (1024 ** 3)` (Python true
division, embedded as exact rational division). -/
def filesizeGb (s : Nat) : ℚ :=
  (s : ℚ) / (1024 ^ 3)

/-- The size-ceiling test: the candidate is skipped when
`"maxSize" in config and filesize_gb > int(config["maxSize"])`;
`sizeOk` is true when it is kept. -/
def sizeOk (maxSize : Option Int) (s : Nat) : Bool :=
  match maxSize with
  | some m => !(decide ((m : ℚ) < filesizeGb s))
  | none => true

/-- The quality-exclusion test: the candidate is skipped when
`"selectedQualityExclusion" in config and data.get("quality") in
config["selectedQualityExclusion"]`; `qualityOk` is true when it is kept. -/
def qualityOk (exclusions : Option (List String)) (q : String) : Bool :=
  match exclusions with
  | some ex => !(ex.contains q)
  | none => true

/-- A candidate survives the two `continue` guards of
`_process_and_cache_links`. -/
def passesFilter (config : Config) (d : LinkData) : Bool :=
  sizeOk config.maxSize d.filesize && qualityOk config.selectedQualityExclusion d.quality

/-- The sort key of `valid_results.sort(key=lambda x: x[1].get("filesize", 0),
reverse=True)`. -/
def candKey (p : String × LinkData) : Nat :=
  p.2.filesize

/-- The descending order used by the ranker: `a` before `b` when
`candKey b ≤ candKey a`.  A stable sort by this relation is exactly
the stable Python `sort(key=…, reverse=True)`. -/
def candGe (a b : String × LinkData) : Prop :=
  candKey b ≤ candKey a

instance : DecidableRel candGe := fun a b => Nat.decLe (candKey b) (candKey a)

instance : IsTotal (String × LinkData) candGe :=
  ⟨fun a b => (Nat.le_total (candKey b) (candKey a)).imp id id⟩

instance : IsTrans (String × LinkData) candGe :=
  ⟨fun _ _ _ h1 h2 => le_trans h2 h1⟩

/-- The list `valid_results` after the filtering loop, before sorting. -/
def validResults (config : Config) (resultsData : List (String × LinkData)) :
    List (String × LinkData) :=
  resultsData.filter (fun p => passesFilter config p.2)

/-- `valid_results` after the in-place stable descending sort. -/
def rankedResults (config : Config) (resultsData : List (String × LinkData)) :
    List (String × LinkData) :=
  List.insertionSort candGe (validResults config resultsData)

/-! Stability of the ranker: each filesize class keeps its input order. -/

theorem filter_key_orderedInsert (k : Nat) (a : String × LinkData)
    (l : List (String × LinkData)) :
    (List.orderedInsert candGe a l).filter (fun p => candKey p == k)
      = if candKey a == k then a :: l.filter (fun p => candKey p == k)
        else l.filter (fun p => candKey p == k) := by
  induction l with
  | nil => simp [List.orderedInsert, List.filter_cons]
  | cons b t ih =>
    by_cases h : candGe a b
    · by_cases hk : candKey a == k <;>
        simp [List.orderedInsert, if_pos h, List.filter_cons, hk]
    · simp only [List.orderedInsert, if_neg h, List.filter_cons, ih]
      by_cases hk : candKey a == k
      · have hbk : (candKey b == k) = false := by
          simp only [candGe, not_le] at h
          simp only [beq_iff_eq] at hk
          simp only [beq_eq_false_iff_ne, ne_eq]
          omega
        simp [hk, hbk]
      · by_cases hb : candKey b == k <;> simp [hk, hb]

theorem filter_key_insertionSort (k : Nat) (l : List (String × LinkData)) :
    (List.insertionSort candGe l).filter (fun p => candKey p == k)
      = l.filter (fun p => candKey p == k) := by
  induction l with
  | nil => rfl
  | cons a t ih =>
    by_cases hk : candKey a == k <;>
      simp [List.insertionSort, filter_key_orderedInsert, List.filter_cons, ih, hk]

/-! ### The static index (`utils/bd.py`) -/

/-- A row of `enlaces_pelis` / `enlaces_series` restricted to the columns the
rewrite machinery touches: `FLAG` (INTEGER DEFAULT 0) and
`enlace_modificado` (TEXT, empty by default). -/
structure DbRow where
  flag : Int
  enlace_modificado : String
deriving DecidableEq

/-- The two link tables of the static index, keyed by the `link` column. -/
structure Db where
  pelis : List (String × DbRow)
  series : List (String × DbRow)
deriving DecidableEq

/-- `SELECT FLAG, enlace_modificado FROM table WHERE link = ?` followed by
`fetchone`: the first row whose `link` column matches. -/
def lookupRow : List (String × DbRow) → String → Option DbRow
  | [], _ => none
  | p :: t, link => if p.1 = link then some p.2 else lookupRow t link

/-- `UPDATE table SET enlace_modificado = ?, FLAG = 1 WHERE link = ?`
(the bodies of `update_db_movies` / `update_db_series`). -/
def updateTable (t : List (String × DbRow)) (link newLink : String) :
    List (String × DbRow) :=
  t.map (fun p => if p.1 = link then (p.1, ⟨1, newLink⟩) else p)

/-- The external promote/copy call `copy_file(http_client, link, file_name)`
from `utils/fichier.py` (not among the provided sources): it may raise, may
return nothing, or returns a `(from_url, to_url)` pair. -/
abbrev CopyOracle := String → String → Except Err (Option (String × String))

/-- `getGood1fichierlink` of `utils/bd.py`, with the sqlite state passed
explicitly and the number of promote/copy calls recorded.  An `Except.error`
in the first component stands for an exception escaping the function (the
`copy_file` call is the only raising operation modelled). -/
def getGood1fichierlink (copyFile : CopyOracle) (db : Db)
    (link fileName : String) : Except Err String × Db × Nat :=
  if strContains link "1fichier" = false then (.ok link, db, 0)
  else
    match lookupRow db.pelis link with
    | some row =>
      if row.flag = 1 ∧ row.enlace_modificado ≠ "" then
        (.ok row.enlace_modificado, db, 0)
      else
        match copyFile link fileName with
        | .error e => (.error e, db, 1)
        | .ok none => (.ok link, db, 1)
        | .ok (some (fromUrl, toUrl)) =>
            (.ok toUrl, { db with pelis := updateTable db.pelis fromUrl toUrl }, 1)
    | none =>
      match lookupRow db.series link with
      | some row =>
        if row.flag = 1 ∧ row.enlace_modificado ≠ "" then
          (.ok row.enlace_modificado, db, 0)
        else
          match copyFile link fileName with
          | .error e => (.error e, db, 1)
          | .ok none => (.ok link, db, 1)
          | .ok (some (fromUrl, toUrl)) =>
              (.ok toUrl, { db with series := updateTable db.series fromUrl toUrl }, 1)
      | none => (.ok link, db, 0)

/-! ### The debrid resolver (`_get_unrestricted_link` in `src/main.py`) -/

/-- The dictionary returned by the unlock endpoint of a provider, restricted to
the fields the resolver reads: `filename`, `download` (Real-Debrid) and the
nested `data.link` (AllDebrid).  `none` stands for an absent or falsy
value. -/
structure UnrestrictedData where
  filename : Option String
  download : Option String
  dataLink : Option String
deriving DecidableEq

/-- The debrid backend as the resolver sees it: its class name
(`type(debrid_service).__name__`), its unlock endpoint (which may raise),
the configured `debridHttp` folder (none when absent or falsy) and the
folder lookup `find_link_in_folder` (which may raise, `none` meaning a
falsy result). -/
structure DebridService where
  name : String
  unrestrictLink : String → Except Err (Option UnrestrictedData)
  debridHttp : Option String
  findLinkInFolder : String → String → Except Err (Option String)

/-- The body of the `try` block of `_get_unrestricted_link`: the resolution
result before the surrounding `except` clause, with the sqlite state and
the promote/copy call count threaded through.  `Except.error` marks an
exception that the `except` clause will catch. -/
def getUnrestrictedLinkRun (svc : DebridService) (copyFile : CopyOracle)
    (db : Db) (originalLink fileName : String) :
    Except Err (Option String) × Db × Nat :=
  let s1 := if svc.name = "RealDebrid"
            then getGood1fichierlink copyFile db originalLink fileName
            else (.ok originalLink, db, 0)
  match s1 with
  | (.error e, db1, n1) => (.error e, db1, n1)
  | (.ok linkToUnrestrict, db1, n1) =>
    match svc.unrestrictLink linkToUnrestrict with
    | .error e => (.error e, db1, n1)
    | .ok none => (.ok none, db1, n1)
    | .ok (some u) =>
      if svc.name = "RealDebrid" then
        match svc.debridHttp with
        | some folder =>
          match u.filename with
          | some fn =>
            match svc.findLinkInFolder folder fn with
            | .error e => (.error e, db1, n1)
            | .ok (some folderLink) => (.ok (some folderLink), db1, n1)
            | .ok none => (.ok u.download, db1, n1)
          | none => (.ok u.download, db1, n1)
        | none => (.ok u.download, db1, n1)
      else if svc.name = "AllDebrid" then
        (.ok u.dataLink, db1, n1)
      else
        (.ok (some originalLink), db1, n1)

/-- `_get_unrestricted_link`: the `try` body with its `except Exception`
clause, which logs and returns `None`. -/
def getUnrestrictedLink (svc : DebridService) (copyFile : CopyOracle)
    (db : Db) (originalLink fileName : String) : Option String × Db × Nat :=
  match getUnrestrictedLinkRun svc copyFile db originalLink fileName with
  | (.error _, db1, n1) => (none, db1, n1)
  | (.ok v, db1, n1) => (v, db1, n1)

/-! ### The background orchestrator (`_process_and_cache_links`, second half) -/

/-- One iteration of the resolution loop of `_process_and_cache_links`:
resolve the candidate; on success `hset` the entry
`{config, link, final_link, filesize}` under `encodeb64(link)`; on failure
leave the cache untouched. -/
def orchestratorStep (svc : DebridService) (copyFile : CopyOracle)
    (config : Config) (acc : Cache × Db) (cand : String × LinkData) :
    Cache × Db :=
  let fileName := cand.2.nombre_fichero.getD "unknown"
  match getUnrestrictedLink svc copyFile acc.2 cand.1 fileName with
  | (some finalLink, db1, _) =>
      (hset acc.1 (encodeb64 cand.1) ⟨config, cand.1, finalLink, cand.2.filesize⟩, db1)
  | (none, db1, _) => (acc.1, db1)

/-- The resolution loop of `_process_and_cache_links` over a ranked
candidate list. -/
def orchestratorRun (svc : DebridService) (copyFile : CopyOracle)
    (config : Config) (cands : List (String × LinkData)) (acc : Cache × Db) :
    Cache × Db :=
  cands.foldl (orchestratorStep svc copyFile config) acc

/-- `_process_and_cache_links`: filter, rank, then resolve-and-cache each
surviving candidate in order. -/
def processAndCacheLinks (svc : DebridService) (copyFile : CopyOracle)
    (config : Config) (resultsData : List (String × LinkData))
    (cache : Cache) (db : Db) : Cache × Db :=
  orchestratorRun svc copyFile config (rankedResults config resultsData) (cache, db)

/-! ### Enrichment (`get_results` in `src/main.py`) -/

/-- The info dictionary returned by `get_file_info` for a 1fichier link,
restricted to the fields `get_results` reads: `size` (default 0) and
`filename` (default empty). -/
structure FichierInfo where
  size : Nat
  filename : String
deriving DecidableEq

/-- The enrichment outcome for one link: the combination of the
`asyncio.gather(..., return_exceptions=True)` fan-out, the `info_map`
lookup and the `if info_data:` truthiness test; `none` covers a raised
fetch, a link absent from the map, and a falsy info payload. -/
abbrev InfoOracle := String → Option FichierInfo

/-- The body of the `for link in search_results` loop of `get_results`:
build the `data` dictionary of the candidate, starting from
`\x7b"filesize": 0, "quality": ""\x7d` and enriching it only when the link is a
1fichier link whose info fetch succeeded (`detect_quality` from
`utils/detection.py` is passed as a parameter). -/
def enrichLink (detectQuality : String → String) (infoFor : InfoOracle)
    (link : String) : String × LinkData :=
  if strContains link "1fichier" then
    match infoFor link with
    | some info => (link, ⟨info.size, detectQuality info.filename, some info.filename⟩)
    | none => (link, ⟨0, "", none⟩)
  else (link, ⟨0, "", none⟩)

/-- `results_data` as built by `get_results`: one `(link, data)` pair per
search result, in order. -/
def buildResultsData (detectQuality : String → String) (infoFor : InfoOracle)
    (searchResults : List String) : List (String × LinkData) :=
  searchResults.map (enrichLink detectQuality infoFor)

/-! ### The playback resolver (`_handle_playback` in `src/main.py`) -/

/-- The two `HTTPException`s `_handle_playback` can raise: 400 when `query`
is empty, 500 when no final link could be produced. -/
inductive PlaybackErr where
  | badRequest
  | resolutionFailed
deriving DecidableEq

/-- Everything `_handle_playback` leaves behind: its HTTP-level outcome,
the Redis hash (which it only reads), the sqlite state and the number of
promote/copy calls made. -/
structure PlaybackResult where
  response : Except PlaybackErr String
  cache : Cache
  db : Db
  copyCalls : Nat

/-- The cache-miss tail of `_handle_playback`: decode the link and the
display name, resolve synchronously, return the final link or raise a 500
error; no cache entry is written. -/
def playbackMiss (svc : DebridService) (copyFile : CopyOracle) (db : Db)
    (cache : Cache) (query fileName : String) : PlaybackResult :=
  let decodedQuery := decodeb64 query
  let decodedFileName := decodeb64 fileName
  match getUnrestrictedLink svc copyFile db decodedQuery decodedFileName with
  | (some finalLink, db1, n1) => ⟨.ok finalLink, cache, db1, n1⟩
  | (none, db1, n1) => ⟨.error .resolutionFailed, cache, db1, n1⟩

/-- `_handle_playback`: reject an empty query, then look the encoded link
up in the `final_links` hash; a hit is returned only when the stored
configuration equals the requested one, any other case falls through to
the synchronous miss path. -/
def handlePlayback (svc : DebridService) (copyFile : CopyOracle) (db : Db)
    (config : Config) (cache : Cache) (query fileName : String) :
    PlaybackResult :=
  if query = "" then ⟨.error .badRequest, cache, db, 0⟩
  else
    match hget cache query with
    | some entry =>
      if entry.config = config then ⟨.ok entry.final_link, cache, db, 0⟩
      else playbackMiss svc copyFile db cache query fileName
    | none => playbackMiss svc copyFile db cache query fileName

/-! ### Helper lemmas -/

/-- After `update_db_movies`/`update_db_series` rewrites the row of `link`,
looking that link up again yields flag 1 and the new replacement. -/
theorem lookupRow_updateTable (t : List (String × DbRow)) (link newLink : String)
    (row : DbRow) (h : lookupRow t link = some row) :
    lookupRow (updateTable t link newLink) link = some ⟨1, newLink⟩ := by
  induction t with
  | nil => simp [lookupRow] at h
  | cons p t ih =>
    by_cases hp : p.1 = link
    · simp [lookupRow, updateTable, hp]
    · have h' : lookupRow t link = some row := by
        simpa [lookupRow, hp] using h
      simpa [lookupRow, updateTable, hp] using ih h'

/-! ### Concrete objects used by witnesses -/

/-- A configuration with a 10 GiB ceiling and one excluded quality. -/
def cfgW : Config := ⟨some 10, some ["720p"], "http://host", []⟩

/-- A configuration differing from `cfgW` in its size ceiling. -/
def cfgW2 : Config := ⟨some 4, some ["720p"], "http://host", []⟩

/-- An empty static index. -/
def dbEmpty : Db := ⟨[], []⟩

/-- A promote/copy oracle that never finds anything. -/
def copyNone : CopyOracle := fun _ _ => .ok none

/-- An AllDebrid-style backend whose unlock endpoint always succeeds. -/
def svcOk : DebridService :=
  ⟨"AllDebrid", fun _ => .ok (some ⟨none, none, some "http://direct/dl"⟩),
   none, fun _ _ => .ok none⟩

/-- An AllDebrid-style backend whose unlock endpoint always raises. -/
def svcErr : DebridService :=
  ⟨"AllDebrid", fun _ => .error "boom", none, fun _ _ => .ok none⟩

/-- A backend of an unrecognized class whose unlock endpoint returns a
falsy payload. -/
def svcFoo : DebridService :=
  ⟨"FooDebrid", fun _ => .ok none, none, fun _ _ => .ok none⟩

/-- A backend of an unrecognized class whose unlock endpoint returns data. -/
def svcBar : DebridService :=
  ⟨"FooDebrid", fun _ => .ok (some ⟨none, none, none⟩), none, fun _ _ => .ok none⟩

/-- A static index holding one not-yet-rewritten 1fichier movie link. -/
def db5 : Db := ⟨[("http://1fichier.com/a", ⟨0, ""⟩)], []⟩

/-- A static index holding one not-yet-rewritten 1fichier series link. -/
def db6 : Db := ⟨[], [("http://1fichier.com/s", ⟨0, ""⟩)]⟩

/-- A promote/copy oracle that promotes any link to a fixed replacement. -/
def copy5 : CopyOracle := fun l _ => .ok (some (l, "http://1fichier.com/new"))

/-- A cache holding, under field `"q"`, an entry written under `cfgW2`. -/
def cacheW : Cache := [("q", ⟨cfgW2, "L", "http://cached/dl", 7⟩)]

/-- Candidates exercising ceiling, exclusion, and a filesize tie. -/
def rdW : List (String × LinkData) :=
  [("L1", ⟨2147483648, "1080p", some "a.mkv"⟩),
   ("L2", ⟨3221225472, "720p", none⟩),
   ("L3", ⟨2147483648, "", none⟩),
   ("L4", ⟨12884901888, "1080p", none⟩)]

/-! ### Claim theorems -/

/-- Claim C1: for every cached entry and playback request, when the entry
stored under the encoded-link key of the request carries a configuration equal
to the decoded one the cached final link is returned, and when the
configurations differ the resolver falls through to the synchronous miss
path (`playbackMiss`) rather than returning the cached link or raising. -/
theorem playback_cache_config_mismatch_is_miss
    (svc : DebridService) (copyFile : CopyOracle) (db : Db) (config : Config)
    (cache : Cache) (query fileName : String) (entry : CacheEntry)
    (hq : query ≠ "") (hhit : hget cache query = some entry) :
    (entry.config = config →
      handlePlayback svc copyFile db config cache query fileName
        = ⟨.ok entry.final_link, cache, db, 0⟩)
    ∧ (entry.config ≠ config →
      handlePlayback svc copyFile db config cache query fileName
        = playbackMiss svc copyFile db cache query fileName) := by
  constructor <;> intro h <;> simp [handlePlayback, hq, hhit, h]

/-- Witness for C1: a concrete entry cached under `cfgW2` is treated as a
miss by a request decoding to `cfgW`. -/
theorem playback_cache_config_mismatch_is_miss_witness :
    handlePlayback svcOk copyNone dbEmpty cfgW cacheW "q" "f"
      = playbackMiss svcOk copyNone dbEmpty cacheW "q" "f" :=
  (playback_cache_config_mismatch_is_miss svcOk copyNone dbEmpty cfgW cacheW
    "q" "f" ⟨cfgW2, "L", "http://cached/dl", 7⟩ (by decide) rfl).2 (by decide)

/-- Claim C2: the filter/rank step keeps exactly the candidates passing the
ceiling and quality-exclusion tests (a subsequence of the input), and the
ranked output is a permutation of that subsequence, sorted by filesize
descending, with every filesize class keeping its relative input order
(stability). -/
theorem filter_ranker_subsequence_sorted_stable (config : Config)
    (resultsData : List (String × LinkData)) :
    List.Sublist (validResults config resultsData) resultsData
    ∧ (∀ p : String × LinkData,
        passesFilter config p.2 = true ↔
          ((∀ m, config.maxSize = some m → filesizeGb p.2.filesize ≤ (m : ℚ))
            ∧ (∀ ex, config.selectedQualityExclusion = some ex → p.2.quality ∉ ex)))
    ∧ (rankedResults config resultsData).Perm (validResults config resultsData)
    ∧ List.Sorted candGe (rankedResults config resultsData)
    ∧ (∀ k : Nat,
        (rankedResults config resultsData).filter (fun p => candKey p == k)
          = (validResults config resultsData).filter (fun p => candKey p == k)) := by
  refine ⟨List.filter_sublist _, ?_, List.perm_insertionSort _ _,
    List.sorted_insertionSort _ _, fun k => filter_key_insertionSort k _⟩
  intro p
  cases hm : config.maxSize <;> cases he : config.selectedQualityExclusion <;>
    simp [passesFilter, sizeOk, qualityOk, hm, he, not_lt]

/-- Witness for C2: on `rdW` under `cfgW`, the oversized and the excluded
candidates are dropped, sizes are descending, and the 2 GiB tie keeps its
input order. -/
theorem filter_ranker_subsequence_sorted_stable_witness :
    rankedResults cfgW rdW
      = [("L1", ⟨2147483648, "1080p", some "a.mkv"⟩), ("L3", ⟨2147483648, "", none⟩)]
    ∧ (rankedResults cfgW rdW).filter (fun p => candKey p == 2147483648)
        = (validResults cfgW rdW).filter (fun p => candKey p == 2147483648) := by
  refine ⟨?_, (filter_ranker_subsequence_sorted_stable cfgW rdW).2.2.2.2 2147483648⟩
  have s1 : sizeOk (some 10) 2147483648 = true := by norm_num [sizeOk, filesizeGb]
  have s2 : sizeOk (some 10) 3221225472 = true := by norm_num [sizeOk, filesizeGb]
  have s3 : sizeOk (some 10) 12884901888 = false := by norm_num [sizeOk, filesizeGb]
  simp [rankedResults, validResults, rdW, cfgW, passesFilter, qualityOk,
    List.filter_cons, s1, s2, s3, List.insertionSort, List.orderedInsert,
    candGe, candKey]

/-- Claim C3: an exception anywhere inside the resolution attempt (the
rewrite lookup, the unlock call, or the folder post-processing) is caught
by `_get_unrestricted_link`, which reports absence instead of
propagating. -/
theorem resolver_catches_all_exceptions
    (svc : DebridService) (copyFile : CopyOracle) (db : Db)
    (link fileName : String) (e : Err) (db1 : Db) (n1 : Nat)
    (h : getUnrestrictedLinkRun svc copyFile db link fileName = (.error e, db1, n1)) :
    getUnrestrictedLink svc copyFile db link fileName = (none, db1, n1) := by
  simp [getUnrestrictedLink, h]

/-- Witness for C3: a raising unlock endpoint yields an absent result. -/
theorem resolver_catches_all_exceptions_witness :
    getUnrestrictedLink svcErr copyNone dbEmpty "http://host/file" "f"
      = (none, dbEmpty, 0) :=
  resolver_catches_all_exceptions svcErr copyNone dbEmpty "http://host/file"
    "f" "boom" dbEmpty 0 rfl

/-- Claim C4, counterexample: for a backend that is neither RealDebrid nor
AllDebrid the resolver still calls the unlock endpoint first; when that
call returns a falsy payload the resolver returns absence, not the
original link, so the claim as stated fails. -/
theorem unknown_provider_claim_counterexample :
    svcFoo.name ≠ "RealDebrid" ∧ svcFoo.name ≠ "AllDebrid" ∧
    (getUnrestrictedLink svcFoo copyNone dbEmpty "http://host/file" "f").1
      ≠ some "http://host/file" := by
  refine ⟨by decide, by decide, ?_⟩
  simp [getUnrestrictedLink, getUnrestrictedLinkRun, svcFoo, copyNone, dbEmpty]

/-- Claim C4 (amended): for a backend that is neither RealDebrid nor
AllDebrid, the resolver returns the original link unchanged provided the
unlock call returns data; when the unlock call raises or returns no data
the resolver returns absence instead. -/
theorem unknown_provider_returns_original_on_unlock_success
    (svc : DebridService) (copyFile : CopyOracle) (db : Db)
    (link fileName : String) (u : UnrestrictedData)
    (h1 : svc.name ≠ "RealDebrid") (h2 : svc.name ≠ "AllDebrid")
    (h3 : svc.unrestrictLink link = .ok (some u)) :
    getUnrestrictedLink svc copyFile db link fileName = (some link, db, 0) := by
  simp [getUnrestrictedLink, getUnrestrictedLinkRun, h1, h2, h3]

/-- Witness for the amended C4: a concrete unrecognized backend whose
unlock endpoint answers passes the original link through. -/
theorem unknown_provider_returns_original_witness :
    getUnrestrictedLink svcBar copyNone dbEmpty "http://host/file" "f"
      = (some "http://host/file", dbEmpty, 0) :=
  unknown_provider_returns_original_on_unlock_success svcBar copyNone dbEmpty
    "http://host/file" "f" ⟨none, none, none⟩ (by decide) (by decide) rfl

/-- Claim C5: for a 1fichier link present in the static index — in the
movie table, or failing that in the series table, the lookup order of
`getGood1fichierlink` — a persisted rewrite (flag 1 and non-empty
replacement) is returned with no promote/copy call; otherwise one
promote/copy call is made, the replacement is persisted with the flag set
in the row of the original link in that same table, the replacement is
returned, and a second resolution of the same link reuses the persisted
rewrite without re-promoting. -/
theorem fichier_rewrite_lookup_and_persistence
    (copyFile : CopyOracle) (db : Db) (link fileName : String)
    (row : DbRow) (repl : String)
    (hf : strContains link "1fichier" = true) :
    (lookupRow db.pelis link = some row →
      (((row.flag = 1 ∧ row.enlace_modificado ≠ "") →
        getGood1fichierlink copyFile db link fileName
          = (.ok row.enlace_modificado, db, 0))
      ∧ (¬(row.flag = 1 ∧ row.enlace_modificado ≠ "") →
        copyFile link fileName = .ok (some (link, repl)) →
          (getGood1fichierlink copyFile db link fileName
              = (.ok repl, { db with pelis := updateTable db.pelis link repl }, 1)
            ∧ (repl ≠ "" →
              getGood1fichierlink copyFile
                  { db with pelis := updateTable db.pelis link repl } link fileName
                = (.ok repl,
                   { db with pelis := updateTable db.pelis link repl }, 0))))))
    ∧ (lookupRow db.pelis link = none →
       lookupRow db.series link = some row →
      (((row.flag = 1 ∧ row.enlace_modificado ≠ "") →
        getGood1fichierlink copyFile db link fileName
          = (.ok row.enlace_modificado, db, 0))
      ∧ (¬(row.flag = 1 ∧ row.enlace_modificado ≠ "") →
        copyFile link fileName = .ok (some (link, repl)) →
          (getGood1fichierlink copyFile db link fileName
              = (.ok repl, { db with series := updateTable db.series link repl }, 1)
            ∧ (repl ≠ "" →
              getGood1fichierlink copyFile
                  { db with series := updateTable db.series link repl } link fileName
                = (.ok repl,
                   { db with series := updateTable db.series link repl }, 0)))))) := by
  constructor
  · intro hrow
    constructor
    · intro hflag
      simp [getGood1fichierlink, hf, hrow, hflag]
    · intro hflag hcopy
      constructor
      · simp [getGood1fichierlink, hf, hrow, hflag, hcopy]
      · intro hrepl
        have hrow2 : lookupRow (updateTable db.pelis link repl) link
            = some ⟨1, repl⟩ :=
          lookupRow_updateTable db.pelis link repl row hrow
        simp [getGood1fichierlink, hf, hrow2, hrepl]
  · intro hnone hrow
    constructor
    · intro hflag
      simp [getGood1fichierlink, hf, hnone, hrow, hflag]
    · intro hflag hcopy
      constructor
      · simp [getGood1fichierlink, hf, hnone, hrow, hflag, hcopy]
      · intro hrepl
        have hrow2 : lookupRow (updateTable db.series link repl) link
            = some ⟨1, repl⟩ :=
          lookupRow_updateTable db.series link repl row hrow
        simp [getGood1fichierlink, hf, hnone, hrow2, hrepl]

/-- Witness for C5: a concrete not-yet-rewritten movie link and a concrete
not-yet-rewritten series link are each promoted once, the rewrite is
persisted in the matching table, and the second resolution reuses it with
no further promote/copy call. -/
theorem fichier_rewrite_lookup_and_persistence_witness :
    (getGood1fichierlink copy5 db5 "http://1fichier.com/a" "f"
      = (.ok "http://1fichier.com/new",
         { db5 with pelis :=
            updateTable db5.pelis "http://1fichier.com/a" "http://1fichier.com/new" }, 1)
    ∧ getGood1fichierlink copy5
        { db5 with pelis :=
            updateTable db5.pelis "http://1fichier.com/a" "http://1fichier.com/new" }
        "http://1fichier.com/a" "f"
      = (.ok "http://1fichier.com/new",
         { db5 with pelis :=
            updateTable db5.pelis "http://1fichier.com/a" "http://1fichier.com/new" }, 0))
    ∧ (getGood1fichierlink copy5 db6 "http://1fichier.com/s" "f"
      = (.ok "http://1fichier.com/new",
         { db6 with series :=
            updateTable db6.series "http://1fichier.com/s" "http://1fichier.com/new" }, 1)
    ∧ getGood1fichierlink copy5
        { db6 with series :=
            updateTable db6.series "http://1fichier.com/s" "http://1fichier.com/new" }
        "http://1fichier.com/s" "f"
      = (.ok "http://1fichier.com/new",
         { db6 with series :=
            updateTable db6.series "http://1fichier.com/s" "http://1fichier.com/new" }, 0)) := by
  have hm := ((fichier_rewrite_lookup_and_persistence copy5 db5
    "http://1fichier.com/a" "f" ⟨0, ""⟩ "http://1fichier.com/new"
    (by decide)).1 rfl).2 (by decide) rfl
  have hs := ((fichier_rewrite_lookup_and_persistence copy5 db6
    "http://1fichier.com/s" "f" ⟨0, ""⟩ "http://1fichier.com/new"
    (by decide)).2 rfl rfl).2 (by decide) rfl
  exact ⟨⟨hm.1, hm.2 (by decide)⟩, ⟨hs.1, hs.2 (by decide)⟩⟩

/-- Claim C6: the orchestrator writes, for each successfully resolved
candidate, exactly one entry `{config, link, final_link, filesize}` under
`encodeb64` of the original (pre-rewrite) link; an absent resolution
leaves the cache untouched and the loop proceeds with the remaining
candidates. -/
theorem orchestrator_caches_success_skips_failure
    (svc : DebridService) (copyFile : CopyOracle) (config : Config)
    (cand : String × LinkData) (rest : List (String × LinkData))
    (resultsData : List (String × LinkData)) (cache : Cache) (db : Db) :
    (∀ fl db1 n1,
      getUnrestrictedLink svc copyFile db cand.1 (cand.2.nombre_fichero.getD "unknown")
          = (some fl, db1, n1) →
      orchestratorStep svc copyFile config (cache, db) cand
        = (hset cache (encodeb64 cand.1) ⟨config, cand.1, fl, cand.2.filesize⟩, db1))
    ∧ (∀ db1 n1,
      getUnrestrictedLink svc copyFile db cand.1 (cand.2.nombre_fichero.getD "unknown")
          = (none, db1, n1) →
      orchestratorStep svc copyFile config (cache, db) cand = (cache, db1))
    ∧ orchestratorRun svc copyFile config (cand :: rest) (cache, db)
        = orchestratorRun svc copyFile config rest
            (orchestratorStep svc copyFile config (cache, db) cand)
    ∧ processAndCacheLinks svc copyFile config resultsData cache db
        = orchestratorRun svc copyFile config (rankedResults config resultsData)
            (cache, db) := by
  refine ⟨?_, ?_, rfl, rfl⟩
  · intro fl db1 n1 h
    simp [orchestratorStep, h]
  · intro db1 n1 h
    simp [orchestratorStep, h]

/-- Witness for C6: a successful resolution writes the entry keyed by the
encoded original link; a raising backend leaves the cache untouched. -/
theorem orchestrator_caches_success_skips_failure_witness :
    orchestratorStep svcOk copyNone cfgW ([], dbEmpty) ("L", ⟨100, "", none⟩)
      = (hset [] (encodeb64 "L") ⟨cfgW, "L", "http://direct/dl", 100⟩, dbEmpty)
    ∧ orchestratorStep svcErr copyNone cfgW ([], dbEmpty) ("L", ⟨100, "", none⟩)
      = ([], dbEmpty) :=
  ⟨(orchestrator_caches_success_skips_failure svcOk copyNone cfgW
      ("L", ⟨100, "", none⟩) [] [] [] dbEmpty).1 "http://direct/dl" dbEmpty 0 rfl,
   (orchestrator_caches_success_skips_failure svcErr copyNone cfgW
      ("L", ⟨100, "", none⟩) [] [] [] dbEmpty).2.1 dbEmpty 0 rfl⟩

/-- Claim C7: the listing pipeline produces one annotated candidate per
search result whatever the enrichment outcomes; a candidate whose
enrichment failed carries filesize 0 and an empty quality label, and a
successful enrichment fills in size, detected quality and filename. -/
theorem enrichment_partial_failure_keeps_all_candidates
    (detectQuality : String → String) (infoFor : InfoOracle)
    (searchResults : List String) :
    (buildResultsData detectQuality infoFor searchResults).length
      = searchResults.length
    ∧ buildResultsData detectQuality infoFor searchResults
        = searchResults.map (enrichLink detectQuality infoFor)
    ∧ (∀ link, infoFor link = none →
        enrichLink detectQuality infoFor link = (link, ⟨0, "", none⟩))
    ∧ (∀ link info, strContains link "1fichier" = true → infoFor link = some info →
        enrichLink detectQuality infoFor link
          = (link, ⟨info.size, detectQuality info.filename, some info.filename⟩)) := by
  refine ⟨by simp [buildResultsData], rfl, ?_, ?_⟩
  · intro link h
    by_cases hf : strContains link "1fichier" <;> simp [enrichLink, hf, h]
  · intro link info hf h
    simp [enrichLink, hf, h]

/-- Witness for C7: with every fetch failing, three links still yield three
candidates, each with filesize 0 and empty quality. -/
theorem enrichment_partial_failure_keeps_all_candidates_witness :
    (buildResultsData (fun _ => "HD") (fun _ => none)
        ["http://1fichier.com/a", "http://1fichier.com/b", "http://host/c"]).length = 3
    ∧ enrichLink (fun _ => "HD") (fun _ => none) "http://1fichier.com/a"
        = ("http://1fichier.com/a", ⟨0, "", none⟩) :=
  ⟨(enrichment_partial_failure_keeps_all_candidates (fun _ => "HD") (fun _ => none)
      ["http://1fichier.com/a", "http://1fichier.com/b", "http://host/c"]).1,
   (enrichment_partial_failure_keeps_all_candidates (fun _ => "HD") (fun _ => none)
      ["http://1fichier.com/a"]).2.2.1 "http://1fichier.com/a" rfl⟩

/-- Claim C8: a playback request that is not a configuration-matching hit
runs the miss path: the link and the name are base64-decoded and resolved
synchronously; a final link is returned as the successful response with no
cache write, and an absent resolution raises the 500 error instead of
returning a partial URL. -/
theorem playback_miss_synchronous_resolution
    (svc : DebridService) (copyFile : CopyOracle) (db : Db) (config : Config)
    (cache : Cache) (query fileName : String)
    (hq : query ≠ "")
    (hmiss : ∀ entry, hget cache query = some entry → entry.config ≠ config) :
    handlePlayback svc copyFile db config cache query fileName
      = playbackMiss svc copyFile db cache query fileName
    ∧ (playbackMiss svc copyFile db cache query fileName).cache = cache
    ∧ (∀ fl db1 n1,
        getUnrestrictedLink svc copyFile db (decodeb64 query) (decodeb64 fileName)
            = (some fl, db1, n1) →
        playbackMiss svc copyFile db cache query fileName
          = ⟨.ok fl, cache, db1, n1⟩)
    ∧ (∀ db1 n1,
        getUnrestrictedLink svc copyFile db (decodeb64 query) (decodeb64 fileName)
            = (none, db1, n1) →
        playbackMiss svc copyFile db cache query fileName
          = ⟨.error .resolutionFailed, cache, db1, n1⟩) := by
  refine ⟨?_, ?_, ?_, ?_⟩
  · cases h : hget cache query with
    | none => simp [handlePlayback, hq, h]
    | some entry => simp [handlePlayback, hq, h, hmiss entry h]
  · rcases h : getUnrestrictedLink svc copyFile db (decodeb64 query) (decodeb64 fileName)
      with ⟨_ | fl, db1, n1⟩ <;> simp [playbackMiss, h]
  · intro fl db1 n1 h
    simp [playbackMiss, h]
  · intro db1 n1 h
    simp [playbackMiss, h]

/-- Witness for C8: an empty cache forces the miss path, which resolves
synchronously and returns the final link of the backend with the cache left
empty. -/
theorem playback_miss_synchronous_resolution_witness :
    handlePlayback svcOk copyNone dbEmpty cfgW [] "q" "f"
      = ⟨.ok "http://direct/dl", [], dbEmpty, 0⟩ := by
  have h := playback_miss_synchronous_resolution svcOk copyNone dbEmpty cfgW []
    "q" "f" (by decide) (fun entry he => by simp [hget] at he)
  exact h.1.trans (h.2.2.1 "http://direct/dl" dbEmpty 0 rfl)

/-- Claim C9: the quantity the ceiling is compared against is exactly the
unrounded rational quotient `filesize / 2 ^ 30`, and with a configured
ceiling `m` a candidate fails the size test precisely when that quotient
strictly exceeds `m`. -/
theorem size_ceiling_fractional_comparison (s : Nat) (m : Int)
    (config : Config) (d : LinkData) :
    filesizeGb s = (s : ℚ) / 2 ^ 30
    ∧ (sizeOk (some m) s = false ↔ (m : ℚ) < filesizeGb s)
    ∧ sizeOk none s = true
    ∧ passesFilter config d
        = (sizeOk config.maxSize d.filesize
            && qualityOk config.selectedQualityExclusion d.quality) := by
  refine ⟨?_, ?_, rfl, rfl⟩
  · show (s : ℚ) / (1024 ^ 3) = (s : ℚ) / 2 ^ 30
    norm_num
  · simp [sizeOk]

/-- Witness for C9: 3 GiB plus one byte strictly exceeds a ceiling of 3, so
the candidate is dropped. -/
theorem size_ceiling_fractional_comparison_witness :
    sizeOk (some 3) 3221225473 = false :=
  (size_ceiling_fractional_comparison 3221225473 3 cfgW ⟨0, "", none⟩).2.1.mpr
    (by norm_num [filesizeGb])

/-- Claim C10: a link that does not contain the substring `1fichier` is
returned unchanged by the rewrite lookup, with the static index left
untouched and no promote/copy call issued. -/
theorem non_fichier_link_untouched
    (copyFile : CopyOracle) (db : Db) (link fileName : String)
    (h : strContains link "1fichier" = false) :
    getGood1fichierlink copyFile db link fileName = (.ok link, db, 0) := by
  simp [getGood1fichierlink, h]

/-- Witness for C10: an uptobox link passes through untouched. -/
theorem non_fichier_link_untouched_witness :
    getGood1fichierlink copy5 db5 "http://uptobox.com/abc" "f"
      = (.ok "http://uptobox.com/abc", db5, 0) :=
  non_fichier_link_untouched copy5 db5 "http://uptobox.com/abc" "f" (by decide)

end NDK
